import Mathlib

/-!
# Verification of the CHM_KRYPTON challenge engine

A shallow embedding of the rule-check and lifecycle code of the
prop-trading evaluation platform, together with theorems settling the
spec claims about it.

Conventions of the embedding:
* `Decimal` / `float` monetary values become `ℚ`.
* UTC timestamps become `ℤ` (seconds); flooring to midnight is
  `86400 * Int.fdiv t 86400`, matching Python's
  `dt.replace(hour=0, minute=0, second=0, microsecond=0)` and
  `.date()` comparisons.
* Database rows become Lean structures; queries over them become
  filters on explicit lists.
* Human-readable description strings of violation records (formatted
  f-strings) are elided; the discriminant `type`, `value` and `limit`
  fields are kept.
* Async side effects (exchange calls) become explicit parameters
  (e.g. a `transferOk : Bool` flag for the master-transfer outcome)
  and state-effect records.
-/

/-- UTC midnight of the day containing `t` (seconds since epoch),
matching `now.replace(hour=0, minute=0, second=0, microsecond=0)`. -/
def todayStartOf (t : ℤ) : ℤ := 86400 * Int.fdiv t 86400

/-- The UTC day index of `t`, matching Python's `.date()` for ordering. -/
def dayIndex (t : ℤ) : ℤ := Int.fdiv t 86400

/-- Embedding of `challenge.status` column: `ChallengeStatus` enum from
`app/models/challenge.py`. -/
inductive ChallengeStatus where
  | phase1 | phase2 | funded | failed | completed
deriving DecidableEq, Repr

/-- Embedding of `challenge_type.drawdown_type` column (`static` or `trailing`). -/
inductive DrawdownType where
  | static | trailing
deriving DecidableEq, Repr

/-- Embedding of `challenge.account_mode` column (`"demo"` or `"funded"`). -/
inductive AccountMode where
  | demo | funded
deriving DecidableEq, Repr

/-- Embedding of `ViolationType` enum from `app/models/violation.py` (the members the
engine can emit). -/
inductive ViolationType where
  | daily_loss | total_loss | consistency | max_trading_days
deriving DecidableEq, Repr

/-- The fields of a `ChallengeType` row (the plan) read by the engine. -/
structure ChallengeType where
  max_daily_loss : ℚ
  max_total_loss : ℚ
  max_trading_days : Option ℕ
  min_trading_days : ℕ
  profit_target_p1 : ℚ
  profit_target_p2 : ℚ
  consistency_rule : Bool
  is_one_phase : Bool
  drawdown_type : DrawdownType
  profit_split_pct : ℚ
deriving DecidableEq, Repr

/-- The fields of a `UserChallenge` row mutated or read by the engine.
Credential and display columns are elided. -/
structure Challenge where
  id : ℕ
  status : ChallengeStatus
  phase : Option ℕ
  account_mode : AccountMode
  initial_balance : ℚ
  current_balance : ℚ
  peak_equity : ℚ
  daily_start_balance : ℚ
  daily_pnl : ℚ
  total_pnl : ℚ
  trading_days_count : ℕ
  daily_reset_at : Option ℤ
  funded_at : Option ℤ
  started_at : ℤ
deriving DecidableEq, Repr

/-- A `Trade` row as queried by the engine: owning challenge, close
time (`NULL` while open) and realized pnl (`NULL` while open). -/
structure Trade where
  challenge_id : ℕ
  closed_at : Option ℤ
  pnl : Option ℚ
deriving DecidableEq, Repr

/-- A `Violation` row as queried by the engine. -/
structure ViolationRow where
  challenge_id : ℕ
  occurred_at : ℤ
deriving DecidableEq, Repr

/-- The violation dict returned by `_check_violations`
(`{"type": …, "value": …, "limit": …}`; the description f-string is
elided). -/
structure ViolationInfo where
  type : ViolationType
  value : ℚ
  limit : ℚ
deriving DecidableEq, Repr

/-- Embedding of `ChallengeEngine._calc_daily_drawdown`: daily drawdown in % of the
daily start balance. -/
def calc_daily_drawdown (daily_start_balance equity : ℚ) : ℚ :=
  if daily_start_balance = 0 then 0
  else
    let daily_loss := daily_start_balance - equity
    if daily_loss ≤ 0 then 0
    else daily_loss / daily_start_balance * 100

/-- Embedding of `ChallengeEngine._calc_total_drawdown`: total drawdown in % from
the static or trailing base. -/
def calc_total_drawdown (ch : Challenge) (ct : ChallengeType) (equity : ℚ) : ℚ :=
  let base := if ct.drawdown_type = DrawdownType.trailing
    then ch.peak_equity else ch.initial_balance
  if base = 0 then 0
  else
    let loss := base - equity
    if loss ≤ 0 then 0
    else loss / base * 100

/-- The floor of a rational, computed on its reduced fraction. -/
def ratFloor (q : ℚ) : ℤ := q.num / q.den

/-- Round-half-even to an integer (the rounding of Python's
`Decimal.quantize` with default context, and of `round()` on exact
halves). -/
def roundHalfEven (q : ℚ) : ℤ :=
  let n := ratFloor q
  let f := q - n
  if f < 1/2 then n
  else if 1/2 < f then n + 1
  else if n % 2 = 0 then n else n + 1

/-- Round-half-even to 2 decimal places: `Decimal.quantize(Decimal("0.01"))`
and `round(x, 2)`. -/
def quantize2 (q : ℚ) : ℚ := (roundHalfEven (q * 100) : ℚ) / 100

/-- Embedding of `services/pnl_calculator.calculate_daily_drawdown_pct` (the other
backend tree): SIGNED daily change in %, negative meaning a drawdown. -/
def calculate_daily_drawdown_pct (equity day_start_balance : ℚ) : ℚ :=
  if day_start_balance = 0 then 0
  else quantize2 ((equity - day_start_balance) / day_start_balance * 100)

/-- The `sum(t.pnl for t in today_trades if t.pnl)` over the trades of
`cid` with `closed_at >= today_start` and `pnl IS NOT NULL`
(`_check_consistency_rule`'s query). -/
def todayPnl (cid : ℕ) (trades : List Trade) (today_start : ℤ) : ℚ :=
  let today_trades := trades.filter fun t =>
    decide (t.challenge_id = cid) &&
    (match t.closed_at with
     | some c => decide (today_start ≤ c)
     | none => false) &&
    t.pnl.isSome
  today_trades.foldl
    (fun acc t => match t.pnl with
      | some p => if p = 0 then acc else acc + p
      | none => acc) 0

/-- Embedding of `ChallengeEngine._check_consistency_rule`: a `consistency` violation
when today's closed pnl strictly exceeds 30 % of `total_pnl`. -/
def check_consistency_rule (ch : Challenge) (trades : List Trade) (now : ℤ) :
    Option ViolationInfo :=
  if ch.total_pnl ≤ 0 then none
  else
    let limit_pct : ℚ := 30
    let max_day_pnl := ch.total_pnl * limit_pct / 100
    let today_pnl := todayPnl ch.id trades (todayStartOf now)
    if max_day_pnl < today_pnl then
      some ⟨ViolationType.consistency, today_pnl / ch.total_pnl * 100, limit_pct⟩
    else none

/-- The `if ct.max_trading_days and challenge.trading_days_count >
ct.max_trading_days` branch of `_check_violations` (Python truthiness:
`None` and `0` both skip the check). -/
def maxTradingDaysViolation (mtd : Option ℕ) (count : ℕ) : Option ViolationInfo :=
  match mtd with
  | none => none
  | some m =>
    if m ≠ 0 ∧ m < count then
      some ⟨ViolationType.max_trading_days, (count : ℚ), (m : ℚ)⟩
    else none

/-- Embedding of `ChallengeEngine._check_violations`: daily loss, then total loss,
then max trading days, then (when enabled and in profit) consistency;
first match wins. -/
def check_violations (ch : Challenge) (ct : ChallengeType)
    (daily_dd total_dd : ℚ) (trades : List Trade) (now : ℤ) :
    Option ViolationInfo :=
  if ct.max_daily_loss ≤ daily_dd then
    some ⟨ViolationType.daily_loss, daily_dd, ct.max_daily_loss⟩
  else if ct.max_total_loss ≤ total_dd then
    some ⟨ViolationType.total_loss, total_dd, ct.max_total_loss⟩
  else
    match maxTradingDaysViolation ct.max_trading_days ch.trading_days_count with
    | some v => some v
    | none =>
      if ct.consistency_rule = true ∧ 0 < ch.total_pnl then
        check_consistency_rule ch trades now
      else none

/-- Step 2 of `ChallengeEngine._check_challenge` (lines 106–111): set
`current_balance := wallet_balance` and raise `peak_equity` to `equity`
when `equity > peak_equity`. -/
def tick_update_balances (ch : Challenge) (wallet_balance equity : ℚ) : Challenge :=
  let ch1 := { ch with current_balance := wallet_balance }
  if ch1.peak_equity < equity then { ch1 with peak_equity := equity } else ch1

/-- Embedding of `ChallengeEngine._daily_reset_check`: on the first observation of a
new UTC day, set `daily_start_balance := current_balance`,
`daily_pnl := 0` and `daily_reset_at := now`. -/
def daily_reset_check (ch : Challenge) (current_balance : ℚ) (now : ℤ) : Challenge :=
  match ch.daily_reset_at with
  | none =>
    { ch with daily_reset_at := some now, daily_start_balance := current_balance }
  | some reset_at =>
    if dayIndex reset_at < dayIndex now then
      { ch with daily_start_balance := current_balance,
                daily_pnl := 0,
                daily_reset_at := some now }
    else ch

/-- Embedding of `ChallengeEngine._update_trading_days`: queries yesterday's closed
trades, and when there are some, yesterday's violations; the function
body then ends (`pass`) without mutating the challenge. -/
def update_trading_days (ch : Challenge) (trades : List Trade)
    (violations : List ViolationRow) (now : ℤ) : Challenge :=
  let today_start := todayStartOf now
  let yesterday_start := today_start - 86400
  let yesterday_trades := trades.filter fun t =>
    decide (t.challenge_id = ch.id) &&
    (match t.closed_at with
     | some c => decide (yesterday_start ≤ c) && decide (c < today_start)
     | none => false)
  if yesterday_trades.isEmpty then ch
  else
    let yesterday_violations := violations.filter fun v =>
      decide (v.challenge_id = ch.id) &&
      decide (yesterday_start ≤ v.occurred_at) &&
      decide (v.occurred_at < today_start)
    let _ := yesterday_violations
    ch

/-- Embedding of `services/risk_manager.update_trading_days` (the other backend
tree): called on a trade close, increments the day counter when the
challenge has exactly one closed trade so far today. -/
def rm_update_trading_days (account_days : ℕ) (account_id : ℕ)
    (trades : List Trade) (now : ℤ) : ℕ :=
  let today_start := todayStartOf now
  let closed_today := (trades.filter fun t =>
    decide (t.challenge_id = account_id) &&
    (match t.closed_at with
     | some c => decide (today_start ≤ c)
     | none => false)).take 2
  if closed_today.length = 1 then account_days + 1 else account_days

/-- The promotion destinations decided by `_check_profit_target`. -/
inductive Promotion where
  | to_phase2 | to_funded
deriving DecidableEq, Repr

/-- The `target_pct` selection at the head of `_check_profit_target`
(`profit_target_p1` in phase1, `profit_target_p2` in phase2). -/
def targetPct (status : ChallengeStatus) (ct : ChallengeType) : Option ℚ :=
  match status with
  | ChallengeStatus.phase1 => some ct.profit_target_p1
  | ChallengeStatus.phase2 => some ct.profit_target_p2
  | _ => none

/-- Embedding of `ChallengeEngine._check_profit_target`: the promotion decision
(notification side effects elided). -/
def check_profit_target (ch : Challenge) (ct : ChallengeType) (total_pnl : ℚ) :
    Option Promotion :=
  match targetPct ch.status ct with
  | none => none
  | some target_pct =>
    let target_amount := ch.initial_balance * target_pct / 100
    if target_amount ≤ total_pnl then
      if ct.min_trading_days ≤ ch.trading_days_count then
        match ch.status with
        | ChallengeStatus.phase1 =>
          if ct.is_one_phase then some Promotion.to_funded
          else some Promotion.to_phase2
        | _ => some Promotion.to_funded
      else none
    else none

/-- The challenge-row mutation of `ChallengeEngine._promote_to_phase2`
(lines 422–440; exchange and notification side effects elided). -/
def promote_to_phase2_state (ch : Challenge) : Challenge :=
  { ch with status := ChallengeStatus.phase2,
            phase := some 2,
            trading_days_count := 0,
            daily_pnl := 0,
            total_pnl := 0,
            current_balance := ch.initial_balance,
            peak_equity := ch.initial_balance,
            daily_start_balance := ch.initial_balance }

/-- The challenge-row mutation of `ChallengeEngine._promote_to_funded`
(lines 475–484; provisioning and notification side effects elided). -/
def promote_to_funded_state (ch : Challenge) (now : ℤ) : Challenge :=
  { ch with status := ChallengeStatus.funded,
            account_mode := AccountMode.funded,
            funded_at := some now,
            phase := none,
            trading_days_count := 0,
            daily_pnl := 0,
            total_pnl := 0,
            daily_start_balance := ch.initial_balance,
            current_balance := ch.initial_balance,
            peak_equity := ch.initial_balance }

/-- A `ScalingStep` row. -/
structure ScalingStep where
  step_number : ℕ
  account_size_before : ℚ
  account_size_after : ℚ
  triggered_at : ℤ
deriving DecidableEq, Repr

/-- Constant `ChallengeEngine.SCALING_TRIGGER_PCT`. -/
def SCALING_TRIGGER_PCT : ℚ := 10
/-- Constant `ChallengeEngine.SCALING_INCREASE_PCT`. -/
def SCALING_INCREASE_PCT : ℚ := 25
/-- Constant `ChallengeEngine.MAX_ACCOUNT_SIZE`. -/
def MAX_ACCOUNT_SIZE : ℚ := 2000000

/-- The reference time for the no-violation window of `_check_scaling`:
the last scaling step's `triggered_at`, else `funded_at or started_at`. -/
def lastScaleTime (ch : Challenge) (steps : List ScalingStep) : ℤ :=
  match steps.getLast? with
  | some s => s.triggered_at
  | none => ch.funded_at.getD ch.started_at

/-- The violation query of `_check_scaling`: violations of this
challenge with `occurred_at > last_scale`. -/
def violationsSinceScale (ch : Challenge) (steps : List ScalingStep)
    (violations : List ViolationRow) : List ViolationRow :=
  violations.filter fun v =>
    decide (v.challenge_id = ch.id) && decide (lastScaleTime ch steps < v.occurred_at)

/-- The scaled account size of `_check_scaling`:
`min(current_balance × (1 + 25/100), MAX_ACCOUNT_SIZE)`. -/
def scalingNewSize (ch : Challenge) : ℚ :=
  min (ch.current_balance * (1 + SCALING_INCREASE_PCT / 100)) MAX_ACCOUNT_SIZE

/-- Embedding of `ChallengeEngine._check_scaling`: returns the challenge row and the
scaling-step list as they stand at the session commit of the tick.
`transferOk` stands for the outcome of the awaited
`master_client.internal_transfer`; the step is added to the session
before that call, and the balance updates happen only inside the `try`
after it succeeds. -/
def check_scaling (ch : Challenge) (total_pnl : ℚ) (steps : List ScalingStep)
    (violations : List ViolationRow) (now : ℤ) (transferOk : Bool) :
    Challenge × List ScalingStep :=
  if MAX_ACCOUNT_SIZE ≤ ch.current_balance then (ch, steps)
  else
    let profit_pct := total_pnl / ch.initial_balance * 100
    let required_pct := SCALING_TRIGGER_PCT * ((steps.length : ℚ) + 1)
    if profit_pct < required_pct then (ch, steps)
    else
      if !(violationsSinceScale ch steps violations).isEmpty then (ch, steps)
      else
        let old_size := ch.current_balance
        let new_size := scalingNewSize ch
        let step : ScalingStep :=
          ⟨steps.length + 1, old_size, new_size, now⟩
        let steps' := steps ++ [step]
        if transferOk then
          ({ ch with current_balance := new_size,
                     initial_balance := new_size,
                     peak_equity := max ch.peak_equity new_size }, steps')
        else (ch, steps')

/-- Embedding of `PayoutStatus` enum from `app/models/payout.py`. -/
inductive PayoutStatus where
  | pending | approved | rejected | processing | sent
deriving DecidableEq, Repr

/-- The fields of a `Payout` row read by the payout routes. -/
structure PayoutRow where
  net_amount : ℚ
  status : PayoutStatus
deriving DecidableEq, Repr

/-- Config value `settings.min_payout_amount` (default `MIN_PAYOUT_AMOUNT = 50`). -/
def min_payout_amount : ℚ := 50

/-- Render a nonnegative 2-dp rational the way a Python `:.2f` format
renders the corresponding float (used for the 400 detail message). -/
def format2 (q : ℚ) : String :=
  let cents := roundHalfEven (q * 100)
  let frac := cents % 100
  toString (cents / 100) ++ "." ++
    (if frac < 10 then "0" ++ toString frac else toString frac)

/-- The `available_amount` computed by `get_available_payout`:
`profit_split_pct`-share of positive `total_pnl`, minus the net amounts
of approved-or-sent payouts, floored at 0, rounded to 2 dp. -/
def available_amount (total_pnl split_pct : ℚ) (payouts : List PayoutRow) : ℚ :=
  let available := if 0 < total_pnl then total_pnl * split_pct / 100 else 0
  let paid := payouts.filter fun p =>
    decide (p.status = PayoutStatus.approved) || decide (p.status = PayoutStatus.sent)
  let already_paid := paid.foldl (fun acc p => acc + p.net_amount) 0
  quantize2 (max 0 (available - already_paid))

/-- The pending-payout query of `get_available_payout`. -/
def hasPendingPayout (payouts : List PayoutRow) : Bool :=
  payouts.any fun p => decide (p.status = PayoutStatus.pending)

/-- The outcome of `POST /payouts/request` for an authorized funded
trader on an existing funded challenge. -/
inductive RequestOutcome where
  | rejected400 (detail : String)
  | payoutCreated (status : PayoutStatus) (amount fee net_amount : ℚ)
deriving DecidableEq, Repr

/-- Embedding of `request_payout` (routes/payouts.py): validation order is minimum
amount, then `can_request` (available ≥ minimum and no pending payout),
then the available-balance cap; on success a pending `Payout` row with
zero fee is added and committed. -/
def request_payout (amount total_pnl split_pct : ℚ)
    (payouts : List PayoutRow) : RequestOutcome :=
  if amount < min_payout_amount then
    RequestOutcome.rejected400 "Minimum payout amount is $50.0"
  else
    let available := available_amount total_pnl split_pct payouts
    let has_pending := hasPendingPayout payouts
    let can_request := decide (min_payout_amount ≤ available) && !has_pending
    if !can_request then
      RequestOutcome.rejected400 "Cannot request payout now"
    else if available < amount then
      RequestOutcome.rejected400
        ("Amount exceeds available balance (" ++ format2 available ++ ")")
    else
      let fee : ℚ := 0
      RequestOutcome.payoutCreated PayoutStatus.pending amount fee (amount - fee)

/-- Config value `settings.bybit_master_min_balance` (default `10_000.0`). -/
def bybit_master_min_balance : ℚ := 10000

/-- Embedding of `BybitMasterClient.check_master_balance`: compares the master
balance against the configured minimum threshold. -/
def check_master_balance (master_balance : ℚ) : Bool :=
  if master_balance < bybit_master_min_balance then false else true

/-- The externally visible effects of the master client during
`setup_funded_account`. -/
structure MasterEffects where
  sub_accounts_created : ℕ
  transfers : List ℚ
  api_keys_created : ℕ
deriving DecidableEq, Repr

/-- Embedding of `BybitMasterClient.setup_funded_account`: checks the master balance
(raising `ValueError("Master balance is below minimum threshold")` when
the check fails), then creates a sub-account, transfers `account_size`
USDT, and creates API keys. -/
def setup_funded_account (master_balance : ℚ) (eff : MasterEffects)
    (account_size : ℚ) : MasterEffects × Except String Unit :=
  if check_master_balance master_balance = false then
    (eff, Except.error "Master balance is below minimum threshold")
  else
    ({ sub_accounts_created := eff.sub_accounts_created + 1,
       transfers := eff.transfers ++ [account_size],
       api_keys_created := eff.api_keys_created + 1 }, Except.ok ())

/-! ## Helper lemmas -/

lemma ratFloor_eq_floor (q : ℚ) : ratFloor q = ⌊q⌋ := Rat.floor_def.symm

lemma roundHalfEven_intCast (n : ℤ) : roundHalfEven ((n : ℤ) : ℚ) = n := by
  norm_num [roundHalfEven, ratFloor_eq_floor]

lemma quantize2_intCast (n : ℤ) : quantize2 ((n : ℤ) : ℚ) = (n : ℚ) := by
  have h : ((n : ℤ) : ℚ) * 100 = (((n * 100 : ℤ)) : ℚ) := by push_cast; ring
  rw [quantize2, h, roundHalfEven_intCast]
  push_cast
  ring

lemma request_payout_cases (amount total_pnl split_pct : ℚ)
    (payouts : List PayoutRow) :
    request_payout amount total_pnl split_pct payouts =
      (if amount < min_payout_amount then
        RequestOutcome.rejected400 "Minimum payout amount is $50.0"
      else if hasPendingPayout payouts = true
          ∨ available_amount total_pnl split_pct payouts < min_payout_amount then
        RequestOutcome.rejected400 "Cannot request payout now"
      else if available_amount total_pnl split_pct payouts < amount then
        RequestOutcome.rejected400
          ("Amount exceeds available balance ("
            ++ format2 (available_amount total_pnl split_pct payouts) ++ ")")
      else RequestOutcome.payoutCreated PayoutStatus.pending amount 0 (amount - 0)) := by
  simp only [request_payout]
  by_cases hmin : amount < min_payout_amount
  · rw [if_pos hmin, if_pos hmin]
  · rw [if_neg hmin, if_neg hmin]
    cases hpend : hasPendingPayout payouts with
    | true => simp
    | false =>
      cases hle : decide (min_payout_amount
          ≤ available_amount total_pnl split_pct payouts) with
      | false =>
        have hlt : available_amount total_pnl split_pct payouts
            < min_payout_amount := not_le.mp (of_decide_eq_false hle)
        simp [hlt]
      | true =>
        have hge : min_payout_amount
            ≤ available_amount total_pnl split_pct payouts :=
          of_decide_eq_true hle
        simp [not_lt.mpr hge]

lemma maxTradingDaysViolation_type {mtd : Option ℕ} {c : ℕ} {v : ViolationInfo}
    (h : maxTradingDaysViolation mtd c = some v) :
    v.type = ViolationType.max_trading_days := by
  cases mtd with
  | none => simp [maxTradingDaysViolation] at h
  | some m =>
    simp only [maxTradingDaysViolation] at h
    split_ifs at h <;>
      first
        | (simp only [Option.some.injEq] at h; rw [← h])
        | exact absurd h (by simp)

lemma check_consistency_rule_type {ch : Challenge} {trades : List Trade}
    {now : ℤ} {v : ViolationInfo}
    (h : check_consistency_rule ch trades now = some v) :
    v.type = ViolationType.consistency := by
  simp only [check_consistency_rule] at h
  split_ifs at h <;>
    first
      | (simp only [Option.some.injEq] at h; rw [← h])
      | exact absurd h (by simp)

/-! ## Claim theorems -/

/-- C1: the rule check evaluates daily loss before total loss with first
match winning, both thresholds inclusive: a `daily_loss` violation is
returned iff `daily_drawdown_pct ≥ plan.max_daily_loss`, and otherwise a
`total_loss` violation iff `total_drawdown_pct ≥ plan.max_total_loss`;
a drawdown exactly at the limit triggers and one strictly below does not. -/
theorem C1_rule_order (ch : Challenge) (ct : ChallengeType)
    (daily_dd total_dd : ℚ) (trades : List Trade) (now : ℤ) :
    ((check_violations ch ct daily_dd total_dd trades now).map ViolationInfo.type
        = some ViolationType.daily_loss ↔ ct.max_daily_loss ≤ daily_dd)
    ∧ ((check_violations ch ct daily_dd total_dd trades now).map ViolationInfo.type
        = some ViolationType.total_loss
        ↔ daily_dd < ct.max_daily_loss ∧ ct.max_total_loss ≤ total_dd) := by
  by_cases h1 : ct.max_daily_loss ≤ daily_dd
  · refine ⟨by simp [check_violations, h1], ?_⟩
    simp only [check_violations, if_pos h1, Option.map_some]
    constructor
    · intro h; exact absurd h (by simp)
    · intro h; exact absurd h.1 (not_lt.mpr h1)
  · by_cases h2 : ct.max_total_loss ≤ total_dd
    · refine ⟨?_, ?_⟩
      · simp only [check_violations, if_neg h1, if_pos h2, Option.map_some]
        constructor
        · intro h; exact absurd h (by simp)
        · intro h; exact absurd h h1
      · simp only [check_violations, if_neg h1, if_pos h2, Option.map_some]
        simp [not_le.mp h1, h2]
    · have hres : check_violations ch ct daily_dd total_dd trades now =
          (match maxTradingDaysViolation ct.max_trading_days ch.trading_days_count with
           | some v => some v
           | none =>
             if ct.consistency_rule = true ∧ 0 < ch.total_pnl then
               check_consistency_rule ch trades now
             else none) := by
        simp only [check_violations, if_neg h1, if_neg h2]
      cases hm : maxTradingDaysViolation ct.max_trading_days ch.trading_days_count with
      | some v =>
        have hres2 : check_violations ch ct daily_dd total_dd trades now = some v := by
          rw [hres, hm]
        have ht := maxTradingDaysViolation_type hm
        rw [hres2]
        refine ⟨⟨fun h => ?_, fun h => absurd h h1⟩,
                ⟨fun h => ?_, fun h => absurd h.2 h2⟩⟩
        · simp [ht] at h
        · simp [ht] at h
      | none =>
        have hres2 : check_violations ch ct daily_dd total_dd trades now =
            (if ct.consistency_rule = true ∧ 0 < ch.total_pnl then
              check_consistency_rule ch trades now
            else none) := by
          rw [hres, hm]
        by_cases hc : ct.consistency_rule = true ∧ 0 < ch.total_pnl
        · rw [if_pos hc] at hres2
          cases hv : check_consistency_rule ch trades now with
          | some v =>
            rw [hv] at hres2
            have ht := check_consistency_rule_type hv
            rw [hres2]
            refine ⟨⟨fun h => ?_, fun h => absurd h h1⟩,
                    ⟨fun h => ?_, fun h => absurd h.2 h2⟩⟩
            · simp [ht] at h
            · simp [ht] at h
          | none =>
            rw [hv] at hres2
            rw [hres2]
            exact ⟨⟨fun h => by simp at h, fun h => absurd h h1⟩,
                   ⟨fun h => by simp at h, fun h => absurd h.2 h2⟩⟩
        · rw [if_neg hc] at hres2
          rw [hres2]
          exact ⟨⟨fun h => by simp at h, fun h => absurd h h1⟩,
                 ⟨fun h => by simp at h, fun h => absurd h.2 h2⟩⟩

/-- C2 (amended): `peak_equity` is non-decreasing across tick balance
updates and scaling events — the tick raises it to `equity` whenever
`equity` exceeds it, and scaling raises it to at least the new size —
but the promotion transitions to phase 2 and to funded reset it to
`initial_balance`, which can lower it below a previously observed value. -/
theorem C2_peak_monotone_amended (ch : Challenge) (wb equity tp : ℚ)
    (steps : List ScalingStep) (violations : List ViolationRow)
    (now : ℤ) (ok : Bool) :
    ch.peak_equity ≤ (tick_update_balances ch wb equity).peak_equity
    ∧ (ch.peak_equity < equity →
        (tick_update_balances ch wb equity).peak_equity = equity)
    ∧ ch.peak_equity ≤ (check_scaling ch tp steps violations now ok).1.peak_equity
    ∧ (promote_to_phase2_state ch).peak_equity = ch.initial_balance
    ∧ (promote_to_funded_state ch now).peak_equity = ch.initial_balance := by
  refine ⟨?_, ?_, ?_, rfl, rfl⟩
  · simp only [tick_update_balances]
    split_ifs with h
    · exact le_of_lt h
    · exact le_refl _
  · intro h
    simp only [tick_update_balances]
    rw [if_pos h]
  · simp only [check_scaling]
    split_ifs <;> simp [le_max_left]

/-- A concrete phase-1 challenge whose observed peak equity (12000)
exceeds its initial balance (10000). -/
def peakResetChallenge : Challenge :=
  { id := 1, status := ChallengeStatus.phase1, phase := some 1,
    account_mode := AccountMode.demo,
    initial_balance := 10000, current_balance := 11500,
    peak_equity := 12000, daily_start_balance := 10000,
    daily_pnl := 0, total_pnl := 1500, trading_days_count := 5,
    daily_reset_at := some 0, funded_at := none, started_at := 0 }

/-- C2 counterexample: the phase-2 promotion lowers `peak_equity` from a
previously observed 12000 down to 10000, so the claimed invariant fails
across state transitions. -/
theorem C2_peak_reset_counterexample :
    (promote_to_phase2_state peakResetChallenge).peak_equity
      < peakResetChallenge.peak_equity := by
  norm_num [promote_to_phase2_state, peakResetChallenge]

/-- C3 (amended): the challenge engine's `_calc_daily_drawdown` equals
`max 0 ((daily_start_balance − equity) / daily_start_balance × 100)`,
returns 0 when `daily_start_balance = 0`, and is nonnegative, for every
nonnegative `daily_start_balance`; the other daily-drawdown computation
(`pnl_calculator.calculate_daily_drawdown_pct`) is signed instead. -/
theorem C3_daily_drawdown_amended (dsb e : ℚ) (h : 0 ≤ dsb) :
    calc_daily_drawdown dsb e = max 0 ((dsb - e) / dsb * 100)
    ∧ 0 ≤ calc_daily_drawdown dsb e
    ∧ (dsb = 0 → calc_daily_drawdown dsb e = 0) := by
  rcases eq_or_lt_of_le h with h0 | hpos
  · refine ⟨?_, ?_, fun _ => ?_⟩ <;>
      simp [calc_daily_drawdown, ← h0]
  · have hne : dsb ≠ 0 := ne_of_gt hpos
    by_cases hle : dsb - e ≤ 0
    · have h1 : (dsb - e) / dsb * 100 ≤ 0 := by
        have hd : (dsb - e) / dsb ≤ 0 :=
          div_nonpos_iff.mpr (Or.inr ⟨hle, hpos.le⟩)
        nlinarith
      refine ⟨?_, ?_, fun h0 => absurd h0 hne⟩
      · rw [calc_daily_drawdown, if_neg hne, if_pos hle, eq_comm]
        exact max_eq_left h1
      · rw [calc_daily_drawdown, if_neg hne, if_pos hle]
    · have hgt : 0 < dsb - e := lt_of_not_ge hle
      have h1 : 0 < (dsb - e) / dsb * 100 :=
        mul_pos (div_pos hgt hpos) (by norm_num)
      refine ⟨?_, ?_, fun h0 => absurd h0 hne⟩
      · rw [calc_daily_drawdown, if_neg hne, if_neg hle, eq_comm]
        exact max_eq_right h1.le
      · rw [calc_daily_drawdown, if_neg hne, if_neg hle]
        exact h1.le

/-- Witness for C3 at `daily_start_balance = 10000`, `equity = 9000`. -/
theorem C3_daily_drawdown_witness :
    (0:ℚ) ≤ 10000
    ∧ (calc_daily_drawdown 10000 9000
          = max 0 ((10000 - 9000) / 10000 * 100)
        ∧ 0 ≤ calc_daily_drawdown 10000 9000
        ∧ ((10000:ℚ) = 0 → calc_daily_drawdown 10000 9000 = 0)) :=
  ⟨by norm_num, C3_daily_drawdown_amended 10000 9000 (by norm_num)⟩

/-- C3 counterexample: the program's other daily-drawdown computation,
`calculate_daily_drawdown_pct` in `services/pnl_calculator.py`, returns
the signed change and is negative (−10) at `equity = 9000`,
`day_start_balance = 10000`, so it is not the claimed
`max 0 (…)` and not `≥ 0`. -/
theorem C3_signed_drawdown_counterexample :
    calculate_daily_drawdown_pct 9000 10000 < 0 := by
  have hval : ((9000:ℚ) - 10000) / 10000 * 100 = (((-10 : ℤ)) : ℚ) := by norm_num
  rw [calculate_daily_drawdown_pct, if_neg (by norm_num : (10000:ℚ) ≠ 0), hval,
    quantize2_intCast]
  norm_num

/-- C4: the daily reset does set `daily_start_balance := current_balance`
and `daily_pnl := 0` on a day boundary, but NEITHER `_daily_reset_check`
NOR `_update_trading_days` ever increments `trading_days_count` — the
latter's body ends in `pass` — so the claimed increment (≥ 1 closed trade
and no violation in the ended day) never happens in this engine. -/
theorem C4_trading_days_not_incremented (ch : Challenge) (cb : ℚ)
    (trades : List Trade) (violations : List ViolationRow) (now : ℤ) :
    update_trading_days ch trades violations now = ch
    ∧ (daily_reset_check ch cb now).trading_days_count = ch.trading_days_count := by
  constructor
  · simp only [update_trading_days]
    split_ifs <;> rfl
  · cases h : ch.daily_reset_at with
    | none => simp [daily_reset_check, h]
    | some r =>
      simp only [daily_reset_check, h]
      split_ifs <;> rfl

/-- C5: in phase1/phase2, promotion fires iff the profit target for the
phase is met (`total_pnl ≥ initial_balance × target_pct / 100`) and
`trading_days_count ≥ min_trading_days`; from phase1 the destination is
phase2 for a two-phase plan and funded for a one-phase plan; missing the
minimum trading days withholds the promotion even with the target met. -/
theorem C5_promotion (ch : Challenge) (ct : ChallengeType) (tp : ℚ)
    (hs : ch.status = ChallengeStatus.phase1 ∨ ch.status = ChallengeStatus.phase2) :
    ((check_profit_target ch ct tp).isSome
      ↔ (ch.initial_balance * (if ch.status = ChallengeStatus.phase1
            then ct.profit_target_p1 else ct.profit_target_p2) / 100 ≤ tp
          ∧ ct.min_trading_days ≤ ch.trading_days_count))
    ∧ (ch.status = ChallengeStatus.phase1 → ct.is_one_phase = false →
        ∀ p, check_profit_target ch ct tp = some p → p = Promotion.to_phase2)
    ∧ (ch.status = ChallengeStatus.phase1 → ct.is_one_phase = true →
        ∀ p, check_profit_target ch ct tp = some p → p = Promotion.to_funded)
    ∧ (ch.status = ChallengeStatus.phase2 →
        ∀ p, check_profit_target ch ct tp = some p → p = Promotion.to_funded)
    ∧ (ch.trading_days_count < ct.min_trading_days →
        check_profit_target ch ct tp = none) := by
  rcases hs with h | h
  · refine ⟨?_, ?_, ?_, ?_, ?_⟩
    · by_cases h1 : ch.initial_balance * ct.profit_target_p1 / 100 ≤ tp
      · by_cases h2 : ct.min_trading_days ≤ ch.trading_days_count
        · by_cases hop : ct.is_one_phase <;>
            simp [check_profit_target, targetPct, h, h1, h2, hop]
        · simp [check_profit_target, targetPct, h, h1, h2]
      · simp [check_profit_target, targetPct, h, h1]
    · intro _ hop p hp
      simp only [check_profit_target, targetPct, h] at hp
      split_ifs at hp with h1 h2 h3
      · rw [hop] at h3; exact absurd h3 (by simp)
      · simp only [Option.some.injEq] at hp; exact hp.symm
    · intro _ hop p hp
      simp only [check_profit_target, targetPct, h] at hp
      split_ifs at hp with h1 h2 h3
      · simp only [Option.some.injEq] at hp; exact hp.symm
    · intro h2
      rw [h] at h2
      exact absurd h2 (by simp)
    · intro hlt
      simp only [check_profit_target, targetPct, h]
      split_ifs with h1 h2 h3
      · exact absurd h2 (not_le.mpr hlt)
      · exact absurd h2 (not_le.mpr hlt)
      · rfl
      · rfl
  · refine ⟨?_, ?_, ?_, ?_, ?_⟩
    · by_cases h1 : ch.initial_balance * ct.profit_target_p2 / 100 ≤ tp
      · by_cases h2 : ct.min_trading_days ≤ ch.trading_days_count
        · simp [check_profit_target, targetPct, h, h1, h2]
        · simp [check_profit_target, targetPct, h, h1, h2]
      · simp [check_profit_target, targetPct, h, h1]
    · intro h1
      rw [h] at h1
      exact absurd h1 (by simp)
    · intro h1
      rw [h] at h1
      exact absurd h1 (by simp)
    · intro _ p hp
      simp only [check_profit_target, targetPct, h] at hp
      split_ifs at hp with h1 h2
      · simp only [Option.some.injEq] at hp; exact hp.symm
    · intro hlt
      simp only [check_profit_target, targetPct, h]
      split_ifs with h1 h2
      · exact absurd h2 (not_le.mpr hlt)
      · rfl
      · rfl

/-- A concrete phase-1 challenge at the 8 % profit target with 5
trading days. -/
def promoCh : Challenge :=
  { id := 2, status := ChallengeStatus.phase1, phase := some 1,
    account_mode := AccountMode.demo,
    initial_balance := 10000, current_balance := 10800,
    peak_equity := 10800, daily_start_balance := 10800,
    daily_pnl := 0, total_pnl := 800, trading_days_count := 5,
    daily_reset_at := some 0, funded_at := none, started_at := 0 }

/-- A two-phase plan with an 8 % phase-1 target and 5 minimum trading
days. -/
def promoCt : ChallengeType :=
  { max_daily_loss := 5, max_total_loss := 10, max_trading_days := none,
    min_trading_days := 5, profit_target_p1 := 8, profit_target_p2 := 5,
    consistency_rule := false, is_one_phase := false,
    drawdown_type := DrawdownType.static, profit_split_pct := 80 }

/-- Witness for C5: `promoCh` is in phase 1 with `total_pnl = 800 =
10000 × 8 / 100` and 5 ≥ 5 trading days, so the promotion fires. -/
theorem C5_promotion_witness :
    (promoCh.status = ChallengeStatus.phase1
      ∨ promoCh.status = ChallengeStatus.phase2)
    ∧ ((check_profit_target promoCh promoCt 800).isSome
        ↔ (promoCh.initial_balance * (if promoCh.status = ChallengeStatus.phase1
              then promoCt.profit_target_p1 else promoCt.profit_target_p2) / 100 ≤ 800
            ∧ promoCt.min_trading_days ≤ promoCh.trading_days_count)) :=
  ⟨Or.inl rfl, (C5_promotion promoCh promoCt 800 (Or.inl rfl)).1⟩

/-- C6: the consistency rule is checked only when `plan.consistency_rule`
is set and `total_pnl > 0`, and (when no earlier rule fires) it returns a
`consistency` violation iff the P&L of trades closed in the current UTC
day strictly exceeds 30 % of `total_pnl` (equivalently, the ratio exceeds
0.30); a ratio of exactly 30 % does not trigger. -/
theorem C6_consistency (ch : Challenge) (ct : ChallengeType)
    (daily_dd total_dd : ℚ) (trades : List Trade) (now : ℤ)
    (h1 : daily_dd < ct.max_daily_loss) (h2 : total_dd < ct.max_total_loss)
    (h3 : maxTradingDaysViolation ct.max_trading_days ch.trading_days_count = none) :
    (¬(ct.consistency_rule = true ∧ 0 < ch.total_pnl) →
      check_violations ch ct daily_dd total_dd trades now = none)
    ∧ (ct.consistency_rule = true → 0 < ch.total_pnl →
        ((check_violations ch ct daily_dd total_dd trades now).map ViolationInfo.type
            = some ViolationType.consistency
          ↔ ch.total_pnl * 30 / 100 < todayPnl ch.id trades (todayStartOf now)))
    ∧ (0 < ch.total_pnl →
        (ch.total_pnl * 30 / 100 < todayPnl ch.id trades (todayStartOf now)
          ↔ 3/10 < todayPnl ch.id trades (todayStartOf now) / ch.total_pnl))
    ∧ (0 < ch.total_pnl →
        todayPnl ch.id trades (todayStartOf now) / ch.total_pnl = 3/10 →
        check_violations ch ct daily_dd total_dd trades now = none) := by
  have hbase : check_violations ch ct daily_dd total_dd trades now =
      (if ct.consistency_rule = true ∧ 0 < ch.total_pnl then
        check_consistency_rule ch trades now
      else none) := by
    simp only [check_violations, if_neg (not_le.mpr h1), if_neg (not_le.mpr h2), h3]
  refine ⟨?_, ?_, ?_, ?_⟩
  · intro hg; rw [hbase, if_neg hg]
  · intro hcr hp
    rw [hbase, if_pos ⟨hcr, hp⟩]
    by_cases hlt : ch.total_pnl * 30 / 100 < todayPnl ch.id trades (todayStartOf now)
    · simp [check_consistency_rule, not_le.mpr hp, hlt]
    · simp [check_consistency_rule, not_le.mpr hp, hlt]
  · intro hp
    rw [(by ring : ch.total_pnl * 30 / 100 = 3 / 10 * ch.total_pnl), lt_div_iff hp]
  · intro hp heq
    have hx : todayPnl ch.id trades (todayStartOf now) = 3 / 10 * ch.total_pnl :=
      (div_eq_iff (ne_of_gt hp)).mp heq
    rw [hbase]
    by_cases hg : ct.consistency_rule = true ∧ 0 < ch.total_pnl
    · rw [if_pos hg]
      simp only [check_consistency_rule]
      split_ifs with ha hb
      · rfl
      · exfalso; linarith
      · rfl
    · rw [if_neg hg]

/-- A funded challenge with `total_pnl = 1000` under a
consistency-enabled plan. -/
def consCh : Challenge :=
  { id := 3, status := ChallengeStatus.funded, phase := none,
    account_mode := AccountMode.funded,
    initial_balance := 10000, current_balance := 11000,
    peak_equity := 11000, daily_start_balance := 11000,
    daily_pnl := 0, total_pnl := 1000, trading_days_count := 0,
    daily_reset_at := some 0, funded_at := some 0, started_at := 0 }

/-- A plan with the consistency rule enabled. -/
def consCt : ChallengeType :=
  { max_daily_loss := 5, max_total_loss := 10, max_trading_days := none,
    min_trading_days := 5, profit_target_p1 := 8, profit_target_p2 := 5,
    consistency_rule := true, is_one_phase := false,
    drawdown_type := DrawdownType.static, profit_split_pct := 80 }

/-- One trade of challenge 3 closed today with P&L 400 (40 % of the
total 1000). -/
def consTrades : List Trade := [⟨3, some 10, some 400⟩]

/-- Witness for C6 with drawdowns 0 below the 5/10 limits, no
max-trading-days rule, and a 40 % day. -/
theorem C6_consistency_witness :
    ((0:ℚ) < consCt.max_daily_loss ∧ (0:ℚ) < consCt.max_total_loss
      ∧ maxTradingDaysViolation consCt.max_trading_days consCh.trading_days_count
          = none)
    ∧ ((check_violations consCh consCt 0 0 consTrades 20000).map ViolationInfo.type
          = some ViolationType.consistency
        ↔ consCh.total_pnl * 30 / 100
            < todayPnl consCh.id consTrades (todayStartOf 20000)) :=
  ⟨⟨by norm_num [consCt], by norm_num [consCt], rfl⟩,
   ((C6_consistency consCh consCt 0 0 consTrades 20000 (by norm_num [consCt])
      (by norm_num [consCt]) rfl).2.1) rfl (by norm_num [consCh])⟩

/-- C7 (amended): for a funded challenge with `current_balance` below
`MAX_ACCOUNT_SIZE` and a successful transfer, scaling occurs iff
`total_pnl / initial_balance × 100 ≥ 10 × (scaling_steps_count + 1)` and
no Violation occurred after the last scaling reference time (the previous
step's `triggered_at`, else `funded_at` falling back to `started_at`);
its effect appends the ScalingStep, rebases `initial_balance :=
new_size`, sets `current_balance := new_size` and raises `peak_equity`
to at least `new_size`, with `new_size = min(current_balance × 1.25,
2,000,000)`. The code additionally skips scaling entirely whenever
`current_balance ≥ MAX_ACCOUNT_SIZE`, a guard the original claim
omitted. -/
theorem C7_scaling_amended (ch : Challenge) (tp : ℚ) (steps : List ScalingStep)
    (violations : List ViolationRow) (now : ℤ)
    (hmax : ch.current_balance < MAX_ACCOUNT_SIZE) :
    (tp / ch.initial_balance * 100
        < SCALING_TRIGGER_PCT * ((steps.length : ℚ) + 1) →
      check_scaling ch tp steps violations now true = (ch, steps))
    ∧ (violationsSinceScale ch steps violations ≠ [] →
      check_scaling ch tp steps violations now true = (ch, steps))
    ∧ (SCALING_TRIGGER_PCT * ((steps.length : ℚ) + 1)
          ≤ tp / ch.initial_balance * 100 →
       violationsSinceScale ch steps violations = [] →
       check_scaling ch tp steps violations now true =
         ({ ch with current_balance := scalingNewSize ch,
                    initial_balance := scalingNewSize ch,
                    peak_equity := max ch.peak_equity (scalingNewSize ch) },
          steps ++ [⟨steps.length + 1, ch.current_balance, scalingNewSize ch, now⟩])
       ∧ scalingNewSize ch
          ≤ (check_scaling ch tp steps violations now true).1.peak_equity) := by
  refine ⟨?_, ?_, ?_⟩
  · intro hlt
    simp only [check_scaling, if_neg (not_le.mpr hmax), if_pos hlt]
  · intro hne
    simp only [check_scaling, if_neg (not_le.mpr hmax)]
    split_ifs with h1 h2
    · rfl
    · rfl
    · exfalso
      apply hne
      cases hb : (violationsSinceScale ch steps violations).isEmpty with
      | true => exact List.isEmpty_iff.mp hb
      | false => exact absurd (by rw [hb]; rfl) h2
  · intro htr hv
    have heq : check_scaling ch tp steps violations now true =
        ({ ch with current_balance := scalingNewSize ch,
                   initial_balance := scalingNewSize ch,
                   peak_equity := max ch.peak_equity (scalingNewSize ch) },
         steps ++ [⟨steps.length + 1, ch.current_balance, scalingNewSize ch, now⟩]) := by
      simp only [check_scaling, if_neg (not_le.mpr hmax), if_neg (not_lt.mpr htr), hv,
        List.isEmpty_nil, Bool.not_true, Bool.false_eq_true, if_false, if_true]
    refine ⟨heq, ?_⟩
    rw [heq]
    exact le_max_right _ _

/-- A funded challenge already at the 2 M cap whose profit percentage
(25 %) meets the first scaling trigger (10 %) with no violations. -/
def capCh : Challenge :=
  { id := 4, status := ChallengeStatus.funded, phase := none,
    account_mode := AccountMode.funded,
    initial_balance := 1600000, current_balance := 2000000,
    peak_equity := 2000000, daily_start_balance := 2000000,
    daily_pnl := 0, total_pnl := 400000, trading_days_count := 0,
    daily_reset_at := some 0, funded_at := some 0, started_at := 0 }

/-- C7 counterexample: the scaling trigger is met (25 ≥ 10 × 1) and no
Violation exists, yet the code performs no scaling — no step is appended
and the challenge is unchanged — because `current_balance ≥
MAX_ACCOUNT_SIZE`, so the claimed "iff" fails as stated. -/
theorem C7_scaling_cap_counterexample :
    SCALING_TRIGGER_PCT * ((([] : List ScalingStep).length : ℚ) + 1)
      ≤ capCh.total_pnl / capCh.initial_balance * 100
    ∧ violationsSinceScale capCh [] [] = []
    ∧ check_scaling capCh capCh.total_pnl [] [] 100 true = (capCh, []) := by
  refine ⟨by norm_num [SCALING_TRIGGER_PCT, capCh], rfl, ?_⟩
  simp only [check_scaling]
  rw [if_pos (by norm_num [MAX_ACCOUNT_SIZE, capCh])]

/-- A funded challenge at +10 % profit eligible for its first scaling
step. -/
def scaleCh : Challenge :=
  { id := 5, status := ChallengeStatus.funded, phase := none,
    account_mode := AccountMode.funded,
    initial_balance := 100000, current_balance := 110000,
    peak_equity := 110000, daily_start_balance := 110000,
    daily_pnl := 0, total_pnl := 10000, trading_days_count := 0,
    daily_reset_at := some 0, funded_at := some 0, started_at := 0 }

/-- Witness for C7 at `scaleCh`: profit 10 % meets `10 × 1`, no
violations, and the account is scaled from 110000 to 137500. -/
theorem C7_scaling_witness :
    scaleCh.current_balance < MAX_ACCOUNT_SIZE
    ∧ (SCALING_TRIGGER_PCT * ((([] : List ScalingStep).length : ℚ) + 1)
          ≤ (10000 : ℚ) / scaleCh.initial_balance * 100 →
       violationsSinceScale scaleCh [] [] = [] →
       check_scaling scaleCh 10000 [] [] 100 true =
         ({ scaleCh with current_balance := scalingNewSize scaleCh,
                         initial_balance := scalingNewSize scaleCh,
                         peak_equity := max scaleCh.peak_equity (scalingNewSize scaleCh) },
          [] ++ [⟨([] : List ScalingStep).length + 1, scaleCh.current_balance,
            scalingNewSize scaleCh, 100⟩])
       ∧ scalingNewSize scaleCh
          ≤ (check_scaling scaleCh 10000 [] [] 100 true).1.peak_equity) :=
  ⟨by norm_num [scaleCh, MAX_ACCOUNT_SIZE],
   (C7_scaling_amended scaleCh 10000 [] [] 100
      (by norm_num [scaleCh, MAX_ACCOUNT_SIZE])).2.2⟩

/-- C8: the claim that a failed master-to-sub transfer leaves no new
ScalingStep in the committed state is FALSE of the code — `_check_scaling`
adds the step to the session before awaiting the transfer, the exception
is caught, and `_check_challenge` then commits — but the balance fields
(`current_balance`, `initial_balance`, `peak_equity`) are indeed
unchanged. At `scaleCh` with the trigger met, a failed transfer commits
the step ⟨1, 110000, 137500⟩ while leaving the challenge row untouched. -/
theorem C8_scaling_partial_failure_eval :
    check_scaling scaleCh 10000 [] [] 50 false
      = (scaleCh, [⟨1, 110000, 137500, 50⟩]) := by
  have h1 : ¬ MAX_ACCOUNT_SIZE ≤ scaleCh.current_balance := by
    norm_num [MAX_ACCOUNT_SIZE, scaleCh]
  have h2 : ¬ ((10000:ℚ) / scaleCh.initial_balance * 100
      < SCALING_TRIGGER_PCT * ((([] : List ScalingStep).length : ℚ) + 1)) := by
    norm_num [SCALING_TRIGGER_PCT, scaleCh]
  have h3 : violationsSinceScale scaleCh [] [] = [] := rfl
  have h4 : scalingNewSize scaleCh = 137500 := by
    norm_num [scalingNewSize, SCALING_INCREASE_PCT, MAX_ACCOUNT_SIZE, scaleCh]
  simp only [check_scaling, if_neg h1, if_neg h2, h3,
    List.isEmpty_nil, Bool.not_true, Bool.false_eq_true, if_false, h4]
  rfl

/-- C9: a payout request is rejected with 400 iff the amount is below
`MIN_PAYOUT` (50), a pending payout is outstanding for the challenge, or
the amount exceeds the available balance (the `profit_split_pct` share
of positive `total_pnl`, minus approved-or-sent net amounts, floored at
0); otherwise a pending Payout with zero fee is created. With split 80,
`total_pnl` 1000 and nothing paid, 801 is rejected with detail
`Amount exceeds available balance (800.00)` and 50 creates a pending
payout. -/
theorem C9_payout_validation :
    (∀ amount total_pnl split_pct : ℚ, ∀ payouts : List PayoutRow,
      ((∃ s, request_payout amount total_pnl split_pct payouts
          = RequestOutcome.rejected400 s)
        ↔ (amount < min_payout_amount ∨ hasPendingPayout payouts = true
            ∨ available_amount total_pnl split_pct payouts < amount))
      ∧ (request_payout amount total_pnl split_pct payouts
          = RequestOutcome.payoutCreated PayoutStatus.pending amount 0 (amount - 0)
        ↔ ¬(amount < min_payout_amount ∨ hasPendingPayout payouts = true
            ∨ available_amount total_pnl split_pct payouts < amount)))
    ∧ request_payout 801 1000 80 []
        = RequestOutcome.rejected400 "Amount exceeds available balance (800.00)"
    ∧ request_payout 50 1000 80 []
        = RequestOutcome.payoutCreated PayoutStatus.pending 50 0 (50 - 0) := by
  have hav : available_amount 1000 80 [] = 800 := by
    simp only [available_amount, List.filter_nil, List.foldl_nil]
    rw [show ((if (0:ℚ) < 1000 then (1000 * 80 / 100 : ℚ) else 0) - 0)
        = (((800:ℤ)) : ℚ) by norm_num]
    rw [max_eq_right (by norm_num : (0:ℚ) ≤ ((800:ℤ) : ℚ)), quantize2_intCast]
    norm_num
  have hfmt : format2 800 = "800.00" := by
    have hc : roundHalfEven ((800:ℚ) * 100) = 80000 := by
      rw [show ((800:ℚ) * 100) = (((80000:ℤ)) : ℚ) by norm_num, roundHalfEven_intCast]
    simp only [format2, hc]
    norm_num
    rfl
  refine ⟨?_, ?_, ?_⟩
  · intro amount total_pnl split_pct payouts
    rw [request_payout_cases]
    by_cases hmin : amount < min_payout_amount
    · simp [hmin]
    · by_cases hpend : hasPendingPayout payouts = true
      · simp [hmin, hpend]
      · by_cases hav50 : available_amount total_pnl split_pct payouts
            < min_payout_amount
        · have hAa : available_amount total_pnl split_pct payouts < amount :=
            lt_of_lt_of_le hav50 (not_lt.mp hmin)
          simp [hmin, hpend, hav50, hAa]
        · by_cases hAa : available_amount total_pnl split_pct payouts < amount
          · simp [hmin, hpend, hav50, hAa]
          · simp [hmin, hpend, hav50, hAa]
  · rw [request_payout_cases]
    rw [if_neg (by norm_num [min_payout_amount] : ¬ (801:ℚ) < min_payout_amount)]
    rw [if_neg (by norm_num [hasPendingPayout, hav, min_payout_amount])]
    rw [if_pos (by rw [hav]; norm_num)]
    rw [hav, hfmt]
    rfl
  · rw [request_payout_cases]
    rw [if_neg (by norm_num [hasPendingPayout, hav, min_payout_amount] :
      ¬ ((50:ℚ) < min_payout_amount))]
    rw [if_neg (by norm_num [hasPendingPayout, hav, min_payout_amount])]
    rw [if_neg (by rw [hav]; norm_num)]

/-- C10 (amended): `setup_funded_account` checks the master balance
against the CONFIGURED MINIMUM (`bybit_master_min_balance` = 10000), not
against the requested account size: it fails with an error — creating no
sub-account and performing no transfer — exactly when the master balance
is below that minimum, and otherwise proceeds (creating the sub-account
and transferring `account_size`) even when the master balance is below
the requested size. -/
theorem C10_master_balance_amended (mb : ℚ) (eff : MasterEffects) (size : ℚ) :
    ((setup_funded_account mb eff size).2
        = Except.error "Master balance is below minimum threshold"
      ↔ mb < bybit_master_min_balance)
    ∧ (mb < bybit_master_min_balance → (setup_funded_account mb eff size).1 = eff)
    ∧ (bybit_master_min_balance ≤ mb →
        (setup_funded_account mb eff size).1
          = { sub_accounts_created := eff.sub_accounts_created + 1,
              transfers := eff.transfers ++ [size],
              api_keys_created := eff.api_keys_created + 1 }
        ∧ (setup_funded_account mb eff size).2 = Except.ok ()) := by
  by_cases h : mb < bybit_master_min_balance
  · simp [setup_funded_account, check_master_balance, h, not_le.mpr h]
  · simp [setup_funded_account, check_master_balance, h, not_lt.mp h]

/-- Witness for C10 at master balance 5000 < 10000: the setup errors and
the effects are unchanged. -/
theorem C10_master_balance_witness :
    ((5000:ℚ) < bybit_master_min_balance)
    ∧ (setup_funded_account 5000 ⟨0, [], 0⟩ 100).1 = ⟨0, [], 0⟩ :=
  ⟨by norm_num [bybit_master_min_balance],
   (C10_master_balance_amended 5000 ⟨0, [], 0⟩ 100).2.1
     (by norm_num [bybit_master_min_balance])⟩

/-- C10 counterexample: with master balance 20000 below the requested
size 50000 (but above the 10000 minimum), the setup SUCCEEDS, creating
the sub-account and transferring the full 50000 — contradicting the
claim that it fails whenever the master balance is below the size. -/
theorem C10_threshold_counterexample :
    (20000:ℚ) < 50000
    ∧ (setup_funded_account 20000 ⟨0, [], 0⟩ 50000).2 = Except.ok ()
    ∧ (setup_funded_account 20000 ⟨0, [], 0⟩ 50000).1.transfers = [50000]
    ∧ (setup_funded_account 20000 ⟨0, [], 0⟩ 50000).1.sub_accounts_created = 1 := by
  have h : ¬ ((20000:ℚ) < bybit_master_min_balance) := by
    norm_num [bybit_master_min_balance]
  refine ⟨by norm_num, ?_, ?_, ?_⟩ <;>
    simp [setup_funded_account, check_master_balance, h]

/-- Witness for C2 at `peakResetChallenge` with observed equity 12500
above the stored peak 12000. -/
theorem C2_peak_monotone_witness :
    peakResetChallenge.peak_equity
      ≤ (tick_update_balances peakResetChallenge 11500 12500).peak_equity
    ∧ (peakResetChallenge.peak_equity < 12500 →
        (tick_update_balances peakResetChallenge 11500 12500).peak_equity = 12500) :=
  ⟨(C2_peak_monotone_amended peakResetChallenge 11500 12500 0 [] [] 0 true).1,
   (C2_peak_monotone_amended peakResetChallenge 11500 12500 0 [] [] 0 true).2.1⟩

/-- Witness for C9 at the concrete request of 50 against an available
balance of 800. -/
theorem C9_payout_witness :
    request_payout 50 1000 80 []
      = RequestOutcome.payoutCreated PayoutStatus.pending 50 0 (50 - 0) :=
  C9_payout_validation.2.2
